import Mathlib

/-!
# Verification of the Jal-Rakshya groundwater analytics engine

A shallow embedding of the engine's core: the synthetic multi-year series
generator, the water-score/index engine, the alert engine, the aggregation
and ranking layer, and the regression-based forecast engine.

Modelling conventions:
* JavaScript numbers are modelled as exact rationals (`ℚ`); `Math.round` and
  `Number.toFixed` are modelled with their ECMAScript rounding rule
  (nearest, ties toward `+∞`).
* `Math.sqrt` (used only inside confidence-interval multipliers) is passed in
  as an explicit function parameter `sqrt : ℚ → ℚ`; every theorem below either
  quantifies over it or multiplies its result by a zero residual.
* `new Date()` timestamps are passed in as an explicit clock parameter.
* Records are Lean structures mirroring the JS objects field by field;
  free-text message/recommendation fields built by string interpolation of
  numbers are omitted, while the identifying `type`/`category`/`title`/`value`
  fields are kept verbatim.
-/

namespace JalRakshya

/-- JS `Math.round`: round to nearest integer, ties toward `+∞`
(`Math.round x = ⌊x + 1/2⌋`). -/
def jsRound (x : ℚ) : ℤ := ⌊x + 1/2⌋

/-- JS `(x).toFixed d` re-read as a number (the `+(...).toFixed(d)` idiom):
round to the nearest multiple of `10 ^ (-d)`, ties toward `+∞`. -/
def roundTo (d : ℕ) (x : ℚ) : ℚ := (jsRound (x * 10 ^ d) : ℚ) / 10 ^ d

/-- JS `Math.max` on two numbers (an explicitly computable `max` so that
concrete witnesses evaluate inside the kernel). -/
def jsMax (a b : ℚ) : ℚ := if a ≤ b then b else a

/-- JS `Math.min` on two numbers. -/
def jsMin (a b : ℚ) : ℚ := if a ≤ b then a else b

/-- JS `Math.abs`. -/
def jsAbs (x : ℚ) : ℚ := if 0 ≤ x then x else -x

lemma jsMax_eq (a b : ℚ) : jsMax a b = max a b := (max_def a b).symm

lemma jsMin_eq (a b : ℚ) : jsMin a b = min a b := (min_def a b).symm

lemma jsAbs_eq (x : ℚ) : jsAbs x = |x| := by
  unfold jsAbs
  by_cases h : 0 ≤ x
  · rw [if_pos h, abs_of_nonneg h]
  · rw [if_neg h, abs_of_neg (lt_of_not_le h)]

/-- One water observation record (one location+year), as stored in
`waterData`.  `lastUpdated` is the `Date` timestamp field, modelled as an
integer clock value. -/
structure Obs where
  location : String
  year : ℤ
  consumption : ℚ
  perCapitaUsage : ℚ
  agriculturalUsage : ℚ
  industrialUsage : ℚ
  householdUsage : ℚ
  rainfall : ℚ
  depletionRate : ℚ
  scarcityLevel : String
  ph : ℚ
  groundwaterLevel : ℚ
  lastUpdated : ℤ
  deriving DecidableEq, Repr

/-! ## Score & Index Engine (`waterScore.js`) -/

/-- `normalize(value, min, max, invert)`: clamp to `[lo, hi]`, rescale
linearly to `[0, 100]`, optionally invert. -/
def normalize (value lo hi : ℚ) (invert : Bool) : ℚ :=
  let clamped := jsMax lo (jsMin hi value)
  let normalized := (clamped - lo) / (hi - lo) * 100
  if invert then 100 - normalized else normalized

/-- `calculateWaterScore`: weighted sum of four normalized components,
clamped to `[0,100]` and rounded (`Math.round(Math.max(0, Math.min(100, score)))`). -/
def calculateWaterScore (d : Obs) : ℤ :=
  let waterLevelScore := normalize d.groundwaterLevel 4 20 true
  let rainfallScore := normalize d.rainfall 500 1500 false
  let depletionScore := normalize d.depletionRate 0 10 true
  let phDeviation := jsAbs (d.ph - 7)
  let phScore := normalize phDeviation 0 (3/2) true
  let score := waterLevelScore * (35/100) + rainfallScore * (25/100) +
    depletionScore * (30/100) + phScore * (10/100)
  jsRound (jsMax 0 (jsMin 100 score))

/-- `getStatus`: band a score into Safe / Warning / Critical. -/
def getStatus (score : ℤ) : String :=
  if score ≥ 70 then "Safe" else if score ≥ 40 then "Warning" else "Critical"

/-- `getStatusColor`. -/
def getStatusColor (score : ℤ) : String :=
  if score ≥ 70 then "#22c55e" else if score ≥ 40 then "#eab308" else "#ef4444"

/-- A `{index, value}` pair as returned by the WQI / depletion-index helpers. -/
structure IndexValue where
  index : String
  value : ℚ
  deriving DecidableEq, Repr

/-- `calculateWQI`: pH-deviation bucketing. -/
def calculateWQI (ph : ℚ) : IndexValue :=
  let deviation := jsAbs (ph - 7)
  if deviation ≤ 1/2 then ⟨"Excellent", 95⟩
  else if deviation ≤ 1 then ⟨"Good", 75⟩
  else if deviation ≤ 3/2 then ⟨"Fair", 55⟩
  else ⟨"Poor", 30⟩

/-- `calculateDepletionIndex`. -/
def calculateDepletionIndex (depletionRate : ℚ) : IndexValue :=
  if depletionRate ≤ 2 then ⟨"Sustainable", 90⟩
  else if depletionRate ≤ 4 then ⟨"Moderate", 65⟩
  else if depletionRate ≤ 6 then ⟨"Concerning", 40⟩
  else ⟨"Critical", 15⟩

/-- `calculateSustainabilityScore`. -/
def calculateSustainabilityScore (d : Obs) : ℤ :=
  let rechargeCapacity := normalize d.rainfall 500 1500 false * (2/5)
  let extractionImpact := normalize d.depletionRate 0 10 true * (35/100)
  let qualityFactor := normalize (jsAbs (d.ph - 7)) 0 (3/2) true * (1/4)
  jsRound (rechargeCapacity + extractionImpact + qualityFactor)

lemma jsRound_mono {a b : ℚ} (h : a ≤ b) : jsRound a ≤ jsRound b :=
  Int.floor_le_floor (by linarith)

lemma jsRound_zero : jsRound 0 = 0 := by
  norm_num [jsRound]

lemma jsRound_hundred : jsRound 100 = 100 := by
  norm_num [jsRound]

/-- **C7.** For every observation, `calculateWaterScore` returns an integer in
the closed interval `[0, 100]` (integrality is by the return type `ℤ`,
mirroring `Math.round`). -/
theorem calculateWaterScore_range (d : Obs) :
    0 ≤ calculateWaterScore d ∧ calculateWaterScore d ≤ 100 := by
  simp only [calculateWaterScore, jsMax_eq, jsMin_eq]
  constructor
  · calc (0 : ℤ) = jsRound 0 := jsRound_zero.symm
    _ ≤ _ := jsRound_mono (le_max_left _ _)
  · calc jsRound _ ≤ jsRound 100 := jsRound_mono (max_le (by norm_num) (min_le_left _ _))
    _ = 100 := jsRound_hundred

/-- `normalize` without inversion is monotone in its value argument
(for a nondegenerate domain `lo < hi`). -/
lemma normalize_mono {lo hi : ℚ} (hd : lo < hi) {a b : ℚ} (h : a ≤ b) :
    normalize a lo hi false ≤ normalize b lo hi false := by
  unfold normalize
  simp only [jsMax_eq, jsMin_eq, Bool.false_eq_true, if_false]
  have hc : max lo (min hi a) ≤ max lo (min hi b) :=
    max_le_max le_rfl (min_le_min le_rfl h)
  have hpos : (0 : ℚ) < hi - lo := by linarith
  have := div_le_div_of_nonneg_right (sub_le_sub_right hc lo) hpos.le
  nlinarith [this]

/-- Inverted `normalize` is antitone in its value argument. -/
lemma normalize_anti {lo hi : ℚ} (hd : lo < hi) {a b : ℚ} (h : a ≤ b) :
    normalize b lo hi true ≤ normalize a lo hi true := by
  unfold normalize
  simp only [jsMax_eq, jsMin_eq, if_true]
  have hc : max lo (min hi a) ≤ max lo (min hi b) :=
    max_le_max le_rfl (min_le_min le_rfl h)
  have hpos : (0 : ℚ) < hi - lo := by linarith
  have := div_le_div_of_nonneg_right (sub_le_sub_right hc lo) hpos.le
  nlinarith [this]

lemma clampScore_mono {a b : ℚ} (h : a ≤ b) :
    jsMax 0 (jsMin 100 a) ≤ jsMax 0 (jsMin 100 b) := by
  rw [jsMax_eq, jsMax_eq, jsMin_eq, jsMin_eq]
  exact max_le_max le_rfl (min_le_min le_rfl h)

/-- **C8.** `calculateWaterScore` is monotone: raising rainfall alone never
lowers the score, and raising the depletion rate alone never raises it. -/
theorem calculateWaterScore_monotone :
    (∀ (d : Obs) (r₁ r₂ : ℚ), r₁ ≤ r₂ →
      calculateWaterScore { d with rainfall := r₁ } ≤
        calculateWaterScore { d with rainfall := r₂ }) ∧
    (∀ (d : Obs) (q₁ q₂ : ℚ), q₁ ≤ q₂ →
      calculateWaterScore { d with depletionRate := q₂ } ≤
        calculateWaterScore { d with depletionRate := q₁ }) := by
  constructor
  · intro d r₁ r₂ h
    unfold calculateWaterScore
    apply jsRound_mono
    apply clampScore_mono
    have hn : normalize r₁ 500 1500 false ≤ normalize r₂ 500 1500 false :=
      normalize_mono (by norm_num) h
    simp only []
    nlinarith [hn]
  · intro d q₁ q₂ h
    unfold calculateWaterScore
    apply jsRound_mono
    apply clampScore_mono
    have hn : normalize q₂ 0 10 true ≤ normalize q₁ 0 10 true :=
      normalize_anti (by norm_num) h
    simp only []
    nlinarith [hn]

/-- Witness for C8 at a concrete observation. -/
def obsW : Obs :=
  { location := "Nashik", year := 2021, consumption := 300, perCapitaUsage := 120,
    agriculturalUsage := 150, industrialUsage := 60, householdUsage := 90,
    rainfall := 900, depletionRate := 3, scarcityLevel := "Moderate",
    ph := 7, groundwaterLevel := 9, lastUpdated := 0 }

/-- Witness: C8 applied at the concrete observation `obsW`. -/
theorem calculateWaterScore_monotone_witness :
    calculateWaterScore { obsW with rainfall := 700 } ≤
      calculateWaterScore { obsW with rainfall := 1100 } ∧
    calculateWaterScore { obsW with depletionRate := 6 } ≤
      calculateWaterScore { obsW with depletionRate := 2 } :=
  ⟨calculateWaterScore_monotone.1 obsW 700 1100 (by norm_num),
   calculateWaterScore_monotone.2 obsW 2 6 (by norm_num)⟩

/-! ## Synthetic Series Generator (`dataStore.js`, `generateMultiYearData`) -/

/-- JS `| 0`: truncate an integer to 32-bit two's complement. -/
def toInt32 (n : ℤ) : ℤ :=
  let m := n % 4294967296
  if m < 2147483648 then m else m - 4294967296

/-- UTF-16 code units of a string (`charCodeAt`); location names are BMP text
so each `Char` is one code unit. -/
def charCodes (s : String) : List ℤ := s.data.map (fun c => (c.toNat : ℤ))

/-- The polynomial string hash
`hash = (hash << 5) - hash + s.charCodeAt(i); hash |= 0`
(the `<< 5` itself wraps at 32 bits). -/
def locationHash (s : String) : ℤ :=
  (charCodes s).foldl (fun h c => toInt32 (toInt32 (h * 32) - h + c)) 0

/-- The fixed target-year set of the generator. -/
def generatorYears : List ℤ := [2016, 2017, 2018, 2019, 2020, 2021]

/-- The synthesized record for a non-base target year:
per-metric linear drift in the year offset plus hash-seeded variation,
each metric clamped to its floor/ceiling after `toFixed` rounding.
The clock parameter `now` supplies the record's `lastUpdated` value
(`new Date()` in the source). -/
def variantRecord (base : Obs) (year : ℤ) (hash : ℤ) (now : ℤ) : Obs :=
  let offset : ℚ := ((year - base.year : ℤ) : ℚ)
  let varSeed : ℤ := ((hash.natAbs : ℤ) + year) % 100
  let variation : ℚ := ((varSeed : ℚ) - 50) / 200
  let newDepletion := jsMax (1/2) (roundTo 1 (base.depletionRate + (offset * (1/4) + variation * (2/5))))
  let newRainfall := jsMax 400 (roundTo 0 (base.rainfall + (offset * (-8) + variation * 35)))
  let newLevel := jsMax 3 (roundTo 1 (base.groundwaterLevel + (offset * (15/100) + variation * (35/100))))
  let newConsumption := jsMax 100 (roundTo 0 (base.consumption + offset * 8 + variation * 15))
  let newPh := jsMax 6 (jsMin 9 (roundTo 1 (base.ph + variation * (1/4))))
  let newAgri := jsMax 50 (roundTo 0 (base.agriculturalUsage + offset * 4 + variation * 12))
  let newIndustrial := jsMax 10 (roundTo 0 (base.industrialUsage + offset * 2 + variation * 8))
  let newHousehold := jsMax 20 (roundTo 0 (base.householdUsage + offset * 2 + variation * 6))
  let newPerCapita := jsMax 50 (roundTo 0 (base.perCapitaUsage + offset * (3/2) + variation * 4))
  let scarcity :=
    if newDepletion ≥ 6 then "Severe"
    else if newDepletion ≥ 5 then "High"
    else if newDepletion ≥ 3 then (if newRainfall < 750 then "High" else "Moderate")
    else "Low"
  { location := base.location, year := year, consumption := newConsumption,
    perCapitaUsage := newPerCapita, agriculturalUsage := newAgri,
    industrialUsage := newIndustrial, householdUsage := newHousehold,
    rainfall := newRainfall, depletionRate := newDepletion,
    scarcityLevel := scarcity, ph := newPh, groundwaterLevel := newLevel,
    lastUpdated := now }

/-- `generateMultiYearData`: one record per target year; the base year is the
unmodified base row, every other year is a synthesized variant. -/
def generateMultiYearData (base : Obs) (now : ℤ) : List Obs :=
  let hash := locationHash base.location
  generatorYears.map (fun y => if y = base.year then base else variantRecord base y hash now)

/-- Forget the `lastUpdated` timestamp of a record. -/
def stripTimestamp (o : Obs) : Obs := { o with lastUpdated := 0 }

/-- A concrete base observation for the C1 counterexample. -/
def baseC1 : Obs :=
  { location := "Nashik", year := 2018, consumption := 300, perCapitaUsage := 120,
    agriculturalUsage := 150, industrialUsage := 60, householdUsage := 90,
    rainfall := 900, depletionRate := 3, scarcityLevel := "Moderate",
    ph := 7, groundwaterLevel := 9, lastUpdated := 0 }

set_option maxRecDepth 4000 in
/-- **C1 counterexample.** Two calls of the generator on the identical base
observation, made at different clock instants, do *not* produce identical
output: the synthesized records' `lastUpdated` field is the wall-clock
`new Date()`. -/
theorem generator_timestamp_counterexample :
    generateMultiYearData baseC1 0 ≠ generateMultiYearData baseC1 1 := by
  with_unfolding_all decide

/-- **C1 amended.** Apart from the `lastUpdated` wall-clock timestamp, the
generator is fully deterministic: two calls with an identical base
observation agree on every other field of every generated record, for every
target year. -/
theorem generateMultiYearData_deterministic_except_timestamp
    (base : Obs) (t₁ t₂ : ℤ) :
    (generateMultiYearData base t₁).map stripTimestamp
      = (generateMultiYearData base t₂).map stripTimestamp := by
  unfold generateMultiYearData
  rw [List.map_map, List.map_map]
  congr 1
  funext y
  by_cases hy : y = base.year
  · simp [hy, Function.comp]
  · simp only [Function.comp, hy, if_false]
    rfl

/-! ## Alert Engine (`alertEngine.js`) -/

/-- An alert's `value` field holds either a number or a string
(the scarcity alert stores the scarcity level string). -/
inductive AlertValue
  | num (q : ℚ)
  | str (s : String)
  deriving DecidableEq, Repr

/-- An alert record.  The free-text `message`/`recommendation` fields and the
`timestamp` are omitted; `type`, `category`, `title`, `value` and `threshold`
are kept verbatim from the source. -/
structure Alert where
  type : String
  category : String
  title : String
  value : AlertValue
  threshold : Option AlertValue := none
  deriving DecidableEq, Repr

/-- The fixed `ALERT_THRESHOLDS` table. -/
structure AlertThresholds where
  criticalWaterLevel : ℚ
  warningWaterLevel : ℚ
  highDepletion : ℚ
  criticalDepletion : ℚ
  lowRainfall : ℚ
  criticalRainfall : ℚ
  highPH : ℚ
  lowPH : ℚ
  highConsumption : ℚ
  deriving DecidableEq, Repr

def ALERT_THRESHOLDS : AlertThresholds :=
  { criticalWaterLevel := 15, warningWaterLevel := 12,
    highDepletion := 5, criticalDepletion := 7,
    lowRainfall := 700, criticalRainfall := 600,
    highPH := 8, lowPH := 13/2, highConsumption := 500 }

/-- The stateless threshold alerts on one record (water level, depletion,
rainfall, pH, consumption, scarcity — in source push order). -/
def thresholdAlerts (data : Obs) : List Alert :=
  (if data.groundwaterLevel ≥ ALERT_THRESHOLDS.criticalWaterLevel then
    [{ type := "critical", category := "Water Level", title := "🚨 Critical Water Level",
       value := .num data.groundwaterLevel,
       threshold := some (.num ALERT_THRESHOLDS.criticalWaterLevel) }]
  else if data.groundwaterLevel ≥ ALERT_THRESHOLDS.warningWaterLevel then
    [{ type := "warning", category := "Water Level", title := "⚠️ Low Water Table",
       value := .num data.groundwaterLevel,
       threshold := some (.num ALERT_THRESHOLDS.warningWaterLevel) }]
  else []) ++
  (if data.depletionRate ≥ ALERT_THRESHOLDS.criticalDepletion then
    [{ type := "critical", category := "Depletion", title := "🚨 Over-extraction Detected",
       value := .num data.depletionRate,
       threshold := some (.num ALERT_THRESHOLDS.criticalDepletion) }]
  else if data.depletionRate ≥ ALERT_THRESHOLDS.highDepletion then
    [{ type := "warning", category := "Depletion", title := "⚠️ High Depletion Rate",
       value := .num data.depletionRate,
       threshold := some (.num ALERT_THRESHOLDS.highDepletion) }]
  else []) ++
  (if data.rainfall ≤ ALERT_THRESHOLDS.criticalRainfall then
    [{ type := "critical", category := "Rainfall", title := "🚨 Drought Risk",
       value := .num data.rainfall,
       threshold := some (.num ALERT_THRESHOLDS.criticalRainfall) }]
  else if data.rainfall ≤ ALERT_THRESHOLDS.lowRainfall then
    [{ type := "warning", category := "Rainfall", title := "⚠️ Below Normal Rainfall",
       value := .num data.rainfall,
       threshold := some (.num ALERT_THRESHOLDS.lowRainfall) }]
  else []) ++
  (if data.ph ≥ ALERT_THRESHOLDS.highPH ∨ data.ph ≤ ALERT_THRESHOLDS.lowPH then
    [{ type := "warning", category := "Water Quality", title := "⚠️ pH Imbalance",
       value := .num data.ph, threshold := some (.str "6.5-8") }]
  else []) ++
  (if data.consumption ≥ ALERT_THRESHOLDS.highConsumption then
    [{ type := "info", category := "Consumption", title := "ℹ️ High Water Consumption",
       value := .num data.consumption,
       threshold := some (.num ALERT_THRESHOLDS.highConsumption) }]
  else []) ++
  (if data.scarcityLevel = "Severe" ∨ data.scarcityLevel = "Extreme" then
    [{ type := "critical", category := "Scarcity",
       title := "🚨 " ++ data.scarcityLevel ++ " Water Scarcity",
       value := .str data.scarcityLevel, threshold := none }]
  else [])

/-- The consecutive-run counter of the trend block: walk adjacent pairs of the
year-sorted history, incrementing on `p prev cur` and resetting to 0
otherwise. -/
def runCount (p : Obs → Obs → Bool) (sorted : List Obs) : ℕ :=
  (sorted.zip sorted.tail).foldl (fun c pr => if p pr.1 pr.2 then c + 1 else 0) 0

/-- The trend-based alerts (the `history.length >= 3` block): sustained
water-level rise, sustained depletion increase, sustained rainfall drop, and
first-half/second-half score deterioration.  (The source also interpolates
`data.location` and run magnitudes into the dropped message strings.) -/
def trendAlerts (_data : Obs) (history : List Obs) : List Alert :=
  let sorted := history.insertionSort (fun a b => a.year ≤ b.year)
  let consecutiveRise := runCount (fun p c => p.groundwaterLevel < c.groundwaterLevel) sorted
  let consecutiveDepIncrease := runCount (fun p c => p.depletionRate < c.depletionRate) sorted
  let consecutiveRainfallDrop := runCount (fun p c => c.rainfall < p.rainfall) sorted
  let scores := sorted.map (fun d => ((calculateWaterScore d : ℤ) : ℚ))
  let firstHalf := scores.take (scores.length / 2)
  let secondHalf := scores.drop (scores.length / 2)
  let avgFirst := firstHalf.sum / (firstHalf.length : ℚ)
  let avgSecond := secondHalf.sum / (secondHalf.length : ℚ)
  (if consecutiveRise ≥ 3 then
    [{ type := "warning", category := "Trend", title := "📉 Sustained Water Level Decline",
       value := .num (consecutiveRise : ℚ), threshold := none }]
  else []) ++
  (if consecutiveDepIncrease ≥ 3 then
    [{ type := "critical", category := "Trend", title := "📊 Accelerating Depletion Trend",
       value := .num (consecutiveDepIncrease : ℚ), threshold := none }]
  else []) ++
  (if consecutiveRainfallDrop ≥ 3 then
    [{ type := "warning", category := "Trend", title := "🌧️ Declining Rainfall Pattern",
       value := .num (consecutiveRainfallDrop : ℚ), threshold := none }]
  else []) ++
  (if avgSecond < avgFirst - 10 then
    [{ type := "warning", category := "Trend", title := "⚡ Overall Water Health Declining",
       value := .num ((jsRound (avgSecond - avgFirst) : ℤ) : ℚ), threshold := none }]
  else [])

/-- `generateAlerts(data, history)`: threshold alerts on the latest record,
then trend alerts when at least 3 historical points are supplied. -/
def generateAlerts (data : Obs) (history : List Obs) : List Alert :=
  thresholdAlerts data ++
    (if history.length ≥ 3 then trendAlerts data history else [])

/-- Helper to build concrete observations for witnesses/counterexamples. -/
def mkObs (loc : String) (year : ℤ) (gwl rain dep ph cons : ℚ) (scar : String) : Obs :=
  { location := loc, year := year, consumption := cons, perCapitaUsage := 120,
    agriculturalUsage := 150, industrialUsage := 60, householdUsage := 90,
    rainfall := rain, depletionRate := dep, scarcityLevel := scar,
    ph := ph, groundwaterLevel := gwl, lastUpdated := 0 }

def oC2a : Obs := mkObs "A" 2016 10 1000 2 7 300 "Low"
def oC2b : Obs := mkObs "A" 2017 (21/2) 1000 2 7 300 "Low"
def oC2c : Obs := mkObs "A" 2018 11 1000 2 7 300 "Low"

set_option maxRecDepth 4000 in
/-- **C2 counterexample.** A history of exactly 3 chronological observations
with strictly increasing `groundwaterLevel` (10, 10.5, 11) yields **no**
trend alert at all: three points give only 2 consecutive rises, below the
`>= 3` run threshold, so no "sustained decline" alert with value 3 exists. -/
theorem threeYearRise_no_trend_alert_counterexample :
    ((generateAlerts oC2c [oC2a, oC2b, oC2c]).filter
        (fun al => al.category = "Trend")) = [] ∧
    ¬ (∃ al ∈ generateAlerts oC2c [oC2a, oC2b, oC2c],
        al.title = "📉 Sustained Water Level Decline" ∧ al.value = .num 3) := by
  with_unfolding_all decide

/-- **C2 amended.** A history of exactly 4 chronological observations whose
`groundwaterLevel` strictly increases year over year (3 consecutive rises)
makes `generateAlerts` emit the "📉 Sustained Water Level Decline" trend
alert with value 3. -/
theorem fourYearRise_sustained_decline_alert
    (d a b c e : Obs)
    (hy₁ : a.year ≤ b.year) (hy₂ : b.year ≤ c.year) (hy₃ : c.year ≤ e.year)
    (hg₁ : a.groundwaterLevel < b.groundwaterLevel)
    (hg₂ : b.groundwaterLevel < c.groundwaterLevel)
    (hg₃ : c.groundwaterLevel < e.groundwaterLevel) :
    ({ type := "warning", category := "Trend",
       title := "📉 Sustained Water Level Decline",
       value := .num 3, threshold := none } : Alert) ∈
      generateAlerts d [a, b, c, e] := by
  have hsorted : List.Sorted (fun x y : Obs => x.year ≤ y.year) [a, b, c, e] := by
    have h13 : a.year ≤ c.year := le_trans hy₁ hy₂
    have h14 : a.year ≤ e.year := le_trans h13 hy₃
    have h24 : b.year ≤ e.year := le_trans hy₂ hy₃
    simp [List.sorted_cons, hy₁, hy₂, hy₃, h13, h14, h24]
  have hlen : ([a, b, c, e] : List Obs).length ≥ 3 := by simp
  have hrun : runCount (fun p c => p.groundwaterLevel < c.groundwaterLevel)
      (([a, b, c, e] : List Obs).insertionSort (fun x y => x.year ≤ y.year)) = 3 := by
    rw [List.Sorted.insertionSort_eq hsorted]
    simp [runCount, hg₁, hg₂, hg₃]
  unfold generateAlerts
  rw [if_pos hlen]
  apply List.mem_append_right
  simp only [trendAlerts]
  rw [hrun]
  simp

/-! ## In-memory store queries (`dataStore.js`) -/

/-- `getWaterByLocation`: filter the store by location name and sort ascending
by year (`Array.prototype.sort` is stable; modelled by stable insertion
sort). -/
def getWaterByLocation (ws : List Obs) (loc : String) : List Obs :=
  (ws.filter (fun d => d.location = loc)).insertionSort (fun a b => a.year ≤ b.year)

/-- One step of building the `latestMap` object: on a seen location, replace
the held record only when the new record's year is strictly greater;
otherwise append the record under its new key (JS object insertion order). -/
def upsertLatest (acc : List Obs) (d : Obs) : List Obs :=
  if acc.any (fun e => e.location = d.location) then
    acc.map (fun e => if e.location = d.location ∧ e.year < d.year then d else e)
  else acc ++ [d]

/-- `Object.values(latestMap)` after folding the whole store: the latest
record per location, in first-seen key order. -/
def latestPerLocation (ws : List Obs) : List Obs :=
  ws.foldl upsertLatest []

/-- One `{prev, curr, changePct}` triple of `getYearlyChanges`. -/
structure MetricChange where
  prev : ℚ
  curr : ℚ
  changePct : ℚ
  deriving DecidableEq, Repr

/-- One entry of `getYearlyChanges` (`from`/`to` are Lean keywords, renamed
`fromYear`/`toYear`). -/
structure YearlyChange where
  fromYear : ℤ
  toYear : ℤ
  waterLevel : MetricChange
  rainfall : MetricChange
  depletion : MetricChange
  consumption : MetricChange
  ph : MetricChange
  deriving DecidableEq, Repr

/-- The `safeDiv` closure of `getYearlyChanges`:
`(a, b) => b !== 0 ? +((a - b) / Math.abs(b) * 100).toFixed(1) : 0`. -/
def safeDiv (a b : ℚ) : ℚ :=
  if b ≠ 0 then roundTo 1 ((a - b) / jsAbs b * 100) else 0

/-- `getYearlyChanges`: per-metric percentage change for each consecutive
year pair of one location's ascending series. -/
def getYearlyChanges (ws : List Obs) (loc : String) : List YearlyChange :=
  let records := getWaterByLocation ws loc
  if records.length < 2 then []
  else
    (records.zip records.tail).map (fun pr =>
      { fromYear := pr.1.year, toYear := pr.2.year,
        waterLevel := ⟨pr.1.groundwaterLevel, pr.2.groundwaterLevel,
          safeDiv pr.2.groundwaterLevel pr.1.groundwaterLevel⟩,
        rainfall := ⟨pr.1.rainfall, pr.2.rainfall,
          safeDiv pr.2.rainfall pr.1.rainfall⟩,
        depletion := ⟨pr.1.depletionRate, pr.2.depletionRate,
          safeDiv pr.2.depletionRate pr.1.depletionRate⟩,
        consumption := ⟨pr.1.consumption, pr.2.consumption,
          safeDiv pr.2.consumption pr.1.consumption⟩,
        ph := ⟨pr.1.ph, pr.2.ph, safeDiv pr.2.ph pr.1.ph⟩ })

/-- One entry of the `yoyChanges` list of `getLocationSummary`.  Note the
divisor there is `(prev || 1)` — the raw previous value, `1` when it is `0` —
*not* `safeDiv`. -/
structure YoYChange where
  fromYear : ℤ
  toYear : ℤ
  waterLevelChange : ℚ
  rainfallChange : ℚ
  depletionChange : ℚ
  deriving DecidableEq, Repr

/-- The `(curr - prev) / (prev || 1) * 100` percentage of
`getLocationSummary`, rounded to one decimal. -/
def summaryPct (curr prev : ℚ) : ℚ :=
  roundTo 1 ((curr - prev) / (if prev = 0 then 1 else prev) * 100)

/-- The consolidated per-location summary (`getLocationSummary`); the
free-text `narrative` is omitted. -/
structure LocationSummary where
  location : String
  year : ℤ
  waterScore : ℤ
  status : String
  statusColor : String
  groundwaterLevel : ℚ
  rainfall : ℚ
  depletionRate : ℚ
  ph : ℚ
  scarcityLevel : String
  wqi : IndexValue
  depletionIndex : IndexValue
  sustainabilityScore : ℤ
  trend : String
  alertCount : ℕ
  yoyChanges : List YoYChange
  yearsAvailable : List ℤ
  deriving DecidableEq, Repr

/-- `getLocationSummary`: null on an empty series, else latest record
enriched with trend, alert-count estimate and year-over-year changes. -/
def getLocationSummary (ws : List Obs) (loc : String) : Option LocationSummary :=
  let records := getWaterByLocation ws loc
  match records.reverse with
  | [] => none
  | latest :: rest =>
    let currScore := calculateWaterScore latest
    let trend :=
      match rest.head? with
      | some prev =>
        let diff := currScore - calculateWaterScore prev
        if diff > 3 then "improving" else if diff < -3 then "declining" else "stable"
      | none => "stable"
    let yoyChanges :=
      if 2 ≤ records.length then
        (records.zip records.tail).map (fun pr =>
          ({ fromYear := pr.1.year, toYear := pr.2.year,
             waterLevelChange := summaryPct pr.2.groundwaterLevel pr.1.groundwaterLevel,
             rainfallChange := summaryPct pr.2.rainfall pr.1.rainfall,
             depletionChange := summaryPct pr.2.depletionRate pr.1.depletionRate } :
             YoYChange))
      else []
    let alertCount : ℕ :=
      (if latest.groundwaterLevel ≥ 12 then 1 else 0) +
      (if latest.depletionRate ≥ 5 then 1 else 0) +
      (if latest.rainfall ≤ 700 then 1 else 0) +
      (if latest.ph < 13/2 ∨ latest.ph > 8 then 1 else 0) +
      (if latest.scarcityLevel = "Severe" ∨ latest.scarcityLevel = "Extreme" then 1 else 0)
    some
      { location := loc, year := latest.year, waterScore := currScore,
        status := getStatus currScore, statusColor := getStatusColor currScore,
        groundwaterLevel := latest.groundwaterLevel, rainfall := latest.rainfall,
        depletionRate := latest.depletionRate, ph := latest.ph,
        scarcityLevel := latest.scarcityLevel, wqi := calculateWQI latest.ph,
        depletionIndex := calculateDepletionIndex latest.depletionRate,
        sustainabilityScore := calculateSustainabilityScore latest,
        trend := trend, alertCount := alertCount, yoyChanges := yoyChanges,
        yearsAvailable := records.map (fun r => r.year) }

/-- The district statistics record (`getDistrictStats`). -/
structure DistrictStats where
  totalLocations : ℕ
  avgWaterLevel : ℚ
  avgRainfall : ℚ
  avgDepletion : ℚ
  criticalCount : ℕ
  warningCount : ℕ
  safeCount : ℕ
  deriving DecidableEq, Repr

/-- Scarcity classified as critical (`Severe`/`Extreme`). -/
def isCriticalScarcity (d : Obs) : Bool :=
  d.scarcityLevel == "Severe" || d.scarcityLevel == "Extreme"

/-- Scarcity classified as warning (`High`). -/
def isHighScarcity (d : Obs) : Bool := d.scarcityLevel == "High"

/-- `getDistrictStats`: `{}` (modelled `none`) on an empty latest-set, else
means and the Safe/Warning/Critical counts over the latest records; the
if/else-if/else chain buckets each record into exactly one count. -/
def getDistrictStats (ws : List Obs) : Option DistrictStats :=
  let latestArr := latestPerLocation ws
  if latestArr.isEmpty then none
  else
    let n := latestArr.length
    some
      { totalLocations := n,
        avgWaterLevel := roundTo 2 ((latestArr.map (fun d => d.groundwaterLevel)).sum / (n : ℚ)),
        avgRainfall := roundTo 1 ((latestArr.map (fun d => d.rainfall)).sum / (n : ℚ)),
        avgDepletion := roundTo 2 ((latestArr.map (fun d => d.depletionRate)).sum / (n : ℚ)),
        criticalCount := latestArr.countP isCriticalScarcity,
        warningCount := latestArr.countP (fun d => !isCriticalScarcity d && isHighScarcity d),
        safeCount := latestArr.countP (fun d => !isCriticalScarcity d && !isHighScarcity d) }

/-- **C3 amended.** In `getYearlyChanges`, whenever a metric's previous-year
value is `0`, the reported `changePct` is `0` (the `safeDiv` guard), for all
five metrics.  (`getLocationSummary`'s `yoyChanges` do *not* share this
property — see the counterexample — they divide by `prev || 1` instead.) -/
theorem getYearlyChanges_prev_zero (ws : List Obs) (loc : String)
    (ch : YearlyChange) (hch : ch ∈ getYearlyChanges ws loc) :
    (ch.waterLevel.prev = 0 → ch.waterLevel.changePct = 0) ∧
    (ch.rainfall.prev = 0 → ch.rainfall.changePct = 0) ∧
    (ch.depletion.prev = 0 → ch.depletion.changePct = 0) ∧
    (ch.consumption.prev = 0 → ch.consumption.changePct = 0) ∧
    (ch.ph.prev = 0 → ch.ph.changePct = 0) := by
  unfold getYearlyChanges at hch
  by_cases hlen : (getWaterByLocation ws loc).length < 2
  · simp [hlen] at hch
  · simp only [hlen, if_false] at hch
    obtain ⟨pr, hpr, rfl⟩ := List.mem_map.mp hch
    refine ⟨?_, ?_, ?_, ?_, ?_⟩ <;> intro h0 <;> simp_all [safeDiv]

/-- Two-record series with a zero previous groundwater level, used for C3. -/
def wsC3 : List Obs :=
  [mkObs "A" 2016 0 800 2 7 300 "Low", mkObs "A" 2017 5 800 2 7 300 "Low"]

/-- The single yearly-change entry that `getYearlyChanges wsC3 "A"`
produces. -/
def chW : YearlyChange :=
  { fromYear := 2016, toYear := 2017,
    waterLevel := ⟨0, 5, 0⟩, rainfall := ⟨800, 800, 0⟩,
    depletion := ⟨2, 2, 0⟩, consumption := ⟨300, 300, 0⟩, ph := ⟨7, 7, 0⟩ }

set_option maxRecDepth 8000 in
/-- Witness: C3 amended applied to the concrete entry of
`getYearlyChanges wsC3 "A"`. -/
theorem getYearlyChanges_prev_zero_witness :
    (chW.waterLevel.prev = 0 → chW.waterLevel.changePct = 0) ∧
    (chW.rainfall.prev = 0 → chW.rainfall.changePct = 0) ∧
    (chW.depletion.prev = 0 → chW.depletion.changePct = 0) ∧
    (chW.consumption.prev = 0 → chW.consumption.changePct = 0) ∧
    (chW.ph.prev = 0 → chW.ph.changePct = 0) :=
  getYearlyChanges_prev_zero wsC3 "A" chW (by with_unfolding_all decide)

set_option maxRecDepth 4000 in
/-- **C3 counterexample.** `getLocationSummary`'s `yoyChanges` do not report
`0` when the previous value is `0`: with groundwater level `0 → 5` the
reported change is `(5 - 0) / (0 || 1) * 100 = 500`, not `0`. -/
theorem summary_prev_zero_counterexample :
    (getWaterByLocation wsC3 "A").map (fun d => d.groundwaterLevel) = [0, 5] ∧
    (getLocationSummary wsC3 "A").map
        (fun s => s.yoyChanges.map (fun y => y.waterLevelChange)) = some [500] ∧
    ((500 : ℚ) = 0 → False) := by
  with_unfolding_all decide

/-! ### District statistics (C9) -/

lemma countP_partition (p q : Obs → Bool) (l : List Obs) :
    l.countP p + l.countP (fun a => !p a && q a) +
      l.countP (fun a => !p a && !q a) = l.length := by
  induction l with
  | nil => simp
  | cons a t ih =>
    by_cases hp : p a <;> by_cases hq : q a <;>
      simp [List.countP_cons, hp, hq] <;> omega

lemma upsertLatest_ne_nil (acc : List Obs) (d : Obs) : upsertLatest acc d ≠ [] := by
  unfold upsertLatest
  by_cases h : acc.any (fun e => e.location = d.location)
  · rw [if_pos h]
    rcases acc with _ | ⟨x, xs⟩
    · simp at h
    · simp
  · rw [if_neg h]
    simp

lemma foldl_upsert_ne_nil (ws : List Obs) (acc : List Obs) (h : acc ≠ []) :
    ws.foldl upsertLatest acc ≠ [] := by
  induction ws generalizing acc with
  | nil => simpa
  | cons d t ih => exact ih _ (upsertLatest_ne_nil acc d)

lemma latestPerLocation_ne_nil {ws : List Obs} (h : ws ≠ []) :
    latestPerLocation ws ≠ [] := by
  rcases ws with _ | ⟨d, t⟩
  · exact absurd rfl h
  · unfold latestPerLocation
    rw [List.foldl_cons]
    exact foldl_upsert_ne_nil t _ (upsertLatest_ne_nil [] d)

/-- **C9.** For every non-empty store, the district statistics exist and the
three scarcity-status counts partition the latest-per-location records:
`safeCount + warningCount + criticalCount = totalLocations`. -/
theorem districtStats_counts_partition (ws : List Obs) (hne : ws ≠ []) :
    ∃ s, getDistrictStats ws = some s ∧
      s.safeCount + s.warningCount + s.criticalCount = s.totalLocations := by
  have hlat : latestPerLocation ws ≠ [] := latestPerLocation_ne_nil hne
  simp only [getDistrictStats]
  rw [if_neg (by simpa using hlat)]
  refine ⟨_, rfl, ?_⟩
  have hpart := countP_partition isCriticalScarcity isHighScarcity (latestPerLocation ws)
  simp only []
  omega

/-- Witness: C9 applied to a one-record store. -/
theorem districtStats_counts_partition_witness :
    ∃ s, getDistrictStats [obsW] = some s ∧
      s.safeCount + s.warningCount + s.criticalCount = s.totalLocations :=
  districtStats_counts_partition [obsW] (by simp)

def oC2d : Obs := mkObs "A" 2019 12 1000 2 7 300 "Low"

/-- Witness: C2 amended applied to a concrete 4-year strictly increasing
history. -/
theorem fourYearRise_sustained_decline_alert_witness :
    ({ type := "warning", category := "Trend",
       title := "📉 Sustained Water Level Decline",
       value := .num 3, threshold := none } : Alert) ∈
      generateAlerts oC2d [oC2a, oC2b, oC2c, oC2d] :=
  fourYearRise_sustained_decline_alert oC2d oC2a oC2b oC2c oC2d
    (by with_unfolding_all decide) (by with_unfolding_all decide)
    (by with_unfolding_all decide) (by with_unfolding_all decide)
    (by with_unfolding_all decide) (by with_unfolding_all decide)

/-! ## Rankings (`getRankings`) -/

/-- One entry of the rankings list. -/
structure RankEntry where
  location : String
  waterScore : ℤ
  status : String
  statusColor : String
  scarcityLevel : String
  groundwaterLevel : ℚ
  rainfall : ℚ
  depletionRate : ℚ
  trend : String
  rank : ℕ
  deriving DecidableEq, Repr

/-- The per-entry trend of `getRankings`: compare the latest score with the
previous year's (`records[records.length - 2]`, i.e. the last element of
`dropLast`). -/
def trendOf (ws : List Obs) (d : Obs) (score : ℤ) : String :=
  let records := getWaterByLocation ws d.location
  match records.dropLast.getLast? with
  | some prev =>
    let diff := score - calculateWaterScore prev
    if diff > 3 then "improving" else if diff < -3 then "declining" else "stable"
  | none => "stable"

/-- The pre-rank entry built from one latest record (`rank` is assigned
afterwards, initialised 0). -/
def rankEntryOf (ws : List Obs) (d : Obs) : RankEntry :=
  let score := calculateWaterScore d
  { location := d.location, waterScore := score, status := getStatus score,
    statusColor := getStatusColor score, scarcityLevel := d.scarcityLevel,
    groundwaterLevel := d.groundwaterLevel, rainfall := d.rainfall,
    depletionRate := d.depletionRate, trend := trendOf ws d score, rank := 0 }

/-- The sort comparator `(a, b) => b.waterScore - a.waterScore`: `a` is placed
before `b` exactly when `b.waterScore ≤ a.waterScore` (descending). -/
def byScoreDesc (a b : RankEntry) : Prop := b.waterScore ≤ a.waterScore

instance : DecidableRel byScoreDesc := fun a b =>
  inferInstanceAs (Decidable (b.waterScore ≤ a.waterScore))

instance : IsTotal RankEntry byScoreDesc :=
  ⟨fun a b => le_total b.waterScore a.waterScore⟩

instance : IsTrans RankEntry byScoreDesc :=
  ⟨fun _ _ _ h₁ h₂ => le_trans h₂ h₁⟩

/-- `ranked.forEach((item, i) => item.rank = i + 1)`: positional ranks. -/
def assignRanks : ℕ → List RankEntry → List RankEntry
  | _, [] => []
  | k, e :: es => { e with rank := k } :: assignRanks (k + 1) es

/-- `getRankings`: entries for all latest-per-location records, sorted
descending by water score (stable sort), ranks `1..N` assigned in order. -/
def getRankings (ws : List Obs) : List RankEntry :=
  let ranked := (latestPerLocation ws).map (rankEntryOf ws)
  assignRanks 1 (ranked.insertionSort byScoreDesc)

lemma map_loc_upsertLatest (acc : List Obs) (d : Obs) :
    (upsertLatest acc d).map (fun e => e.location) =
      if d.location ∈ acc.map (fun e => e.location) then
        acc.map (fun e => e.location)
      else acc.map (fun e => e.location) ++ [d.location] := by
  unfold upsertLatest
  by_cases h : acc.any (fun e => e.location = d.location)
  · have hmem : d.location ∈ acc.map (fun e => e.location) := by
      simp only [List.any_eq_true, decide_eq_true_eq] at h
      obtain ⟨e, he, heq⟩ := h
      exact List.mem_map.mpr ⟨e, he, heq⟩
    rw [if_pos h, if_pos hmem, List.map_map]
    apply List.map_congr_left
    intro e _
    simp only [Function.comp]
    by_cases hc : e.location = d.location ∧ e.year < d.year
    · rw [if_pos hc]
      exact hc.1.symm
    · rw [if_neg hc]
  · have hmem : d.location ∉ acc.map (fun e => e.location) := by
      simp only [List.any_eq_true, decide_eq_true_eq] at h
      intro hx
      obtain ⟨e, he, heq⟩ := List.mem_map.mp hx
      exact h ⟨e, he, heq⟩
    rw [if_neg h, if_neg hmem, List.map_append]
    rfl

lemma mem_map_loc_upsertLatest (acc : List Obs) (d : Obs) (x : String) :
    x ∈ (upsertLatest acc d).map (fun e => e.location) ↔
      x ∈ acc.map (fun e => e.location) ∨ x = d.location := by
  rw [map_loc_upsertLatest]
  by_cases h : d.location ∈ acc.map (fun e => e.location)
  · rw [if_pos h]
    constructor
    · exact Or.inl
    · rintro (hx | rfl)
      · exact hx
      · exact h
  · rw [if_neg h]
    simp

lemma nodup_map_loc_upsertLatest (acc : List Obs) (d : Obs)
    (hnd : (acc.map (fun e => e.location)).Nodup) :
    ((upsertLatest acc d).map (fun e => e.location)).Nodup := by
  rw [map_loc_upsertLatest]
  by_cases h : d.location ∈ acc.map (fun e => e.location)
  · rwa [if_pos h]
  · rw [if_neg h]
    refine List.Nodup.append hnd (List.nodup_singleton _) ?_
    intro a ha hb
    rw [List.mem_singleton] at hb
    subst hb
    exact h ha

lemma foldl_upsert_loc_nodup (ws : List Obs) (acc : List Obs)
    (h : (acc.map (fun e => e.location)).Nodup) :
    ((ws.foldl upsertLatest acc).map (fun e => e.location)).Nodup := by
  induction ws generalizing acc with
  | nil => simpa
  | cons d t ih => exact ih _ (nodup_map_loc_upsertLatest acc d h)

lemma mem_foldl_upsert_loc (ws : List Obs) (acc : List Obs) (x : String) :
    x ∈ (ws.foldl upsertLatest acc).map (fun e => e.location) ↔
      x ∈ acc.map (fun e => e.location) ∨ x ∈ ws.map (fun e => e.location) := by
  induction ws generalizing acc with
  | nil => simp
  | cons d t ih =>
    rw [List.foldl_cons, ih, mem_map_loc_upsertLatest]
    simp only [List.map_cons, List.mem_cons]
    tauto

lemma latestPerLocation_loc_nodup (ws : List Obs) :
    ((latestPerLocation ws).map (fun e => e.location)).Nodup :=
  foldl_upsert_loc_nodup ws [] (by simp)

lemma mem_latestPerLocation_loc (ws : List Obs) (x : String) :
    x ∈ (latestPerLocation ws).map (fun e => e.location) ↔
      x ∈ ws.map (fun e => e.location) := by
  unfold latestPerLocation
  rw [mem_foldl_upsert_loc]
  simp

lemma latestPerLocation_loc_perm_dedup (ws : List Obs) :
    ((latestPerLocation ws).map (fun e => e.location)).Perm
      ((ws.map (fun e => e.location)).dedup) := by
  rw [List.perm_ext_iff_of_nodup (latestPerLocation_loc_nodup ws)
    (List.nodup_dedup _)]
  intro a
  rw [List.mem_dedup, mem_latestPerLocation_loc]

lemma assignRanks_map_loc (l : List RankEntry) : ∀ k,
    (assignRanks k l).map (fun e => e.location) = l.map (fun e => e.location) := by
  induction l with
  | nil => intro k; rfl
  | cons e es ih => intro k; simp [assignRanks, ih]

lemma assignRanks_map_score (l : List RankEntry) : ∀ k,
    (assignRanks k l).map (fun e => e.waterScore) = l.map (fun e => e.waterScore) := by
  induction l with
  | nil => intro k; rfl
  | cons e es ih => intro k; simp [assignRanks, ih]

lemma assignRanks_length (l : List RankEntry) : ∀ k,
    (assignRanks k l).length = l.length := by
  induction l with
  | nil => intro k; rfl
  | cons e es ih => intro k; simp [assignRanks, ih]

lemma assignRanks_map_rank (l : List RankEntry) : ∀ k,
    (assignRanks k l).map (fun e => e.rank) = List.range' k l.length := by
  induction l with
  | nil => intro k; rfl
  | cons e es ih => intro k; simp [assignRanks, ih, List.range']

/-- **C5 amended.** For every non-empty store: the rankings carry exactly one
entry per distinct location (their locations are a permutation of the
distinct store locations), the entries are *weakly* descending by
`waterScore` (strict descent fails on ties — see the counterexample), and
the assigned ranks are exactly `1..N` in order. -/
theorem getRankings_properties (ws : List Obs) (hne : ws ≠ []) :
    ((getRankings ws).map (fun e => e.location)).Perm
        ((ws.map (fun d => d.location)).dedup) ∧
    ((getRankings ws).map (fun e => e.waterScore)).Pairwise (fun a b => b ≤ a) ∧
    (getRankings ws).map (fun e => e.rank) =
      List.range' 1 (getRankings ws).length := by
  refine ⟨?_, ?_, ?_⟩
  · unfold getRankings
    rw [assignRanks_map_loc]
    have hperm :=
      (List.perm_insertionSort byScoreDesc
        ((latestPerLocation ws).map (rankEntryOf ws))).map (fun e => e.location)
    refine hperm.trans ?_
    rw [List.map_map]
    have hcomp : ((fun e : RankEntry => e.location) ∘ rankEntryOf ws) =
        fun d : Obs => d.location := funext fun d => rfl
    rw [hcomp]
    exact latestPerLocation_loc_perm_dedup ws
  · unfold getRankings
    rw [assignRanks_map_score, List.pairwise_map]
    exact List.sorted_insertionSort byScoreDesc
      ((latestPerLocation ws).map (rankEntryOf ws))
  · unfold getRankings
    rw [assignRanks_map_rank, assignRanks_length]

/-- Witness: C5 amended applied to a one-record store. -/
theorem getRankings_properties_witness :
    ((getRankings [obsW]).map (fun e => e.location)).Perm
        (([obsW].map (fun d => d.location)).dedup) ∧
    ((getRankings [obsW]).map (fun e => e.waterScore)).Pairwise (fun a b => b ≤ a) ∧
    (getRankings [obsW]).map (fun e => e.rank) =
      List.range' 1 (getRankings [obsW]).length :=
  getRankings_properties [obsW] (by simp)

def oC5a : Obs := mkObs "A" 2020 12 1000 5 7 300 "Moderate"
def oC5b : Obs := mkObs "B" 2020 12 1000 5 7 300 "Moderate"

set_option maxRecDepth 8000 in
/-- **C5 counterexample.** Two distinct locations with identical metrics tie
at water score 55, so the rankings are *not* strictly descending by
`waterScore`. -/
theorem rankings_tie_counterexample :
    ((getRankings [oC5a, oC5b]).map (fun e => e.waterScore)) = [55, 55] ∧
    ¬ ((getRankings [oC5a, oC5b]).map (fun e => e.waterScore)).Pairwise
        (fun a b : ℤ => b < a) := by
  with_unfolding_all decide

/-! ## Forecast Engine (`waterScore.js`: `linearRegression`, `predictFuture`;
`waterController.js`: `getPredictions`) -/

/-- A regression line `{slope, intercept}`. -/
structure Reg where
  slope : ℚ
  intercept : ℚ
  deriving DecidableEq, Repr

/-- `linearRegression`: ordinary least squares over `(x, y)` points;
`{slope: 0, intercept: 0}` for fewer than 2 points.  (In ℚ the degenerate
all-equal-`x` denominator yields `0` where JS floats yield `NaN`; no claim
exercises that case since years are distinct.) -/
def linearRegression (points : List (ℚ × ℚ)) : Reg :=
  let n : ℚ := (points.length : ℚ)
  if points.length < 2 then ⟨0, 0⟩
  else
    let sumX := (points.map (fun p => p.1)).sum
    let sumY := (points.map (fun p => p.2)).sum
    let sumXY := (points.map (fun p => p.1 * p.2)).sum
    let sumX2 := (points.map (fun p => p.1 * p.1)).sum
    let slope := (n * sumXY - sumX * sumY) / (n * sumX2 - sumX * sumX)
    ⟨slope, (sumY - slope * sumX) / n⟩

/-- `calcResidualStdError`: `sqrt(SSE / (n - 2))` for `n ≥ 3`, else `0`.
`Math.sqrt` is the explicit parameter `sqrt`. -/
def calcResidualStdError (sqrt : ℚ → ℚ) (points : List (ℚ × ℚ)) (reg : Reg) : ℚ :=
  if points.length < 3 then 0
  else
    let sse := (points.map (fun p => (p.2 - (reg.slope * p.1 + reg.intercept)) ^ 2)).sum
    sqrt (sse / ((points.length : ℚ) - 2))

/-- A `{lower, upper}` confidence interval. -/
structure CI where
  lower : ℚ
  upper : ℚ
  deriving DecidableEq, Repr

/-- One forecast entry of `predictFuture`. -/
structure Prediction where
  year : ℤ
  groundwaterLevel : ℚ
  groundwaterLevelCI : CI
  rainfall : ℚ
  rainfallCI : CI
  depletionRate : ℚ
  depletionRateCI : CI
  confidenceLevel : String
  deriving DecidableEq, Repr

/-- `predictFuture(historicalData, yearsAhead)`: per-metric linear regression
with residual-based confidence intervals widening with horizon.
`Math.max(...years)` is modelled by a fold (years are positive in this
system). -/
def predictFuture (sqrt : ℚ → ℚ) (historicalData : List Obs) (yearsAhead : ℕ) :
    List Prediction :=
  let waterLevelPoints := historicalData.map (fun d => (((d.year : ℤ) : ℚ), d.groundwaterLevel))
  let rainfallPoints := historicalData.map (fun d => (((d.year : ℤ) : ℚ), d.rainfall))
  let depletionPoints := historicalData.map (fun d => (((d.year : ℤ) : ℚ), d.depletionRate))
  let wlReg := linearRegression waterLevelPoints
  let rfReg := linearRegression rainfallPoints
  let dpReg := linearRegression depletionPoints
  let wlResiduals := calcResidualStdError sqrt waterLevelPoints wlReg
  let rfResiduals := calcResidualStdError sqrt rainfallPoints rfReg
  let dpResiduals := calcResidualStdError sqrt depletionPoints dpReg
  let lastYear := (historicalData.map (fun d => d.year)).foldl max 0
  let n : ℚ := (historicalData.length : ℚ)
  (List.range yearsAhead).map (fun j =>
    let i : ℕ := j + 1
    let year : ℤ := lastYear + (i : ℤ)
    let confidenceMultiplier :=
      (196/100) * sqrt (1 + 1 / n + ((i : ℚ) * (i : ℚ)) / (n * 3))
    let wlPred := roundTo 2 (wlReg.slope * ((year : ℤ) : ℚ) + wlReg.intercept)
    let rfPred := roundTo 1 (rfReg.slope * ((year : ℤ) : ℚ) + rfReg.intercept)
    let dpPred := roundTo 2 (dpReg.slope * ((year : ℤ) : ℚ) + dpReg.intercept)
    { year := year,
      groundwaterLevel := jsMax 0 wlPred,
      groundwaterLevelCI :=
        ⟨jsMax 0 (roundTo 2 (wlPred - wlResiduals * confidenceMultiplier)),
         roundTo 2 (wlPred + wlResiduals * confidenceMultiplier)⟩,
      rainfall := jsMax 0 rfPred,
      rainfallCI :=
        ⟨jsMax 0 (roundTo 1 (rfPred - rfResiduals * confidenceMultiplier)),
         roundTo 1 (rfPred + rfResiduals * confidenceMultiplier)⟩,
      depletionRate := jsMax 0 dpPred,
      depletionRateCI :=
        ⟨jsMax 0 (roundTo 2 (dpPred - dpResiduals * confidenceMultiplier)),
         roundTo 2 (dpPred + dpResiduals * confidenceMultiplier)⟩,
      confidenceLevel := if i ≤ 1 then "high" else if i ≤ 2 then "medium" else "low" })

/-- `GET /api/water/:location/predictions` (`getPredictions` controller):
a 400 failure with the insufficient-history message when the location has
fewer than 2 records, else the prediction list. -/
def getPredictionsResult (sqrt : ℚ → ℚ) (ws : List Obs) (loc : String)
    (yearsAhead : ℕ) : Except String (List Prediction) :=
  let data := getWaterByLocation ws loc
  if data.length < 2 then
    Except.error "Need at least 2 years of data for predictions"
  else Except.ok (predictFuture sqrt data yearsAhead)

/-- **C4.** When the location has fewer than 2 historical years, the
predictions endpoint fails with the explicit insufficient-history message
and returns no predictions list, for every sqrt model, store, and horizon. -/
theorem getPredictions_insufficient_history (sqrt : ℚ → ℚ) (ws : List Obs)
    (loc : String) (yearsAhead : ℕ)
    (h : (getWaterByLocation ws loc).length < 2) :
    getPredictionsResult sqrt ws loc yearsAhead =
      Except.error "Need at least 2 years of data for predictions" := by
  simp only [getPredictionsResult]
  rw [if_pos h]

/-- Witness: C4 applied to an empty store. -/
theorem getPredictions_insufficient_history_witness :
    getPredictionsResult (fun q => q) [] "Nashik" 3 =
      Except.error "Need at least 2 years of data for predictions" :=
  getPredictions_insufficient_history (fun q => q) [] "Nashik" 3 (by decide)

lemma calcResidualStdError_eq_zero (sqrt : ℚ → ℚ) (points : List (ℚ × ℚ))
    (reg : Reg) (h : points.length < 3) :
    calcResidualStdError sqrt points reg = 0 := by
  simp only [calcResidualStdError]
  rw [if_pos h]

/-- `toFixed` is idempotent: re-rounding an already-rounded value changes
nothing. -/
lemma roundTo_idem (d : ℕ) (x : ℚ) : roundTo d (roundTo d x) = roundTo d x := by
  unfold roundTo jsRound
  have hpow : ((10 : ℚ) ^ d) ≠ 0 := by positivity
  rw [div_mul_cancel₀ _ hpow]
  congr 1
  rw [Int.floor_int_add]
  norm_num

lemma jsMax_zero_of_nonneg {x : ℚ} (h : 0 ≤ x) : jsMax 0 x = x := by
  rw [jsMax_eq]
  exact max_eq_right h

/-- With fewer than 3 historical points every residual standard error is `0`,
so the `sqrt` model is irrelevant to `predictFuture`. -/
lemma predictFuture_short_history (sq : ℚ → ℚ) (hist : List Obs)
    (h : hist.length < 3) (k : ℕ) :
    predictFuture sq hist k = predictFuture (fun _ => 0) hist k := by
  simp only [predictFuture]
  rw [calcResidualStdError_eq_zero sq, calcResidualStdError_eq_zero sq,
    calcResidualStdError_eq_zero sq, calcResidualStdError_eq_zero (fun _ => 0),
    calcResidualStdError_eq_zero (fun _ => 0),
    calcResidualStdError_eq_zero (fun _ => 0)]
  · simp
  all_goals simpa using h

/-- The two-observation history of the C6 test vector:
(2018, level 10) and (2019, level 12). -/
def c6hist : List Obs :=
  [mkObs "P" 2018 10 800 3 7 300 "Low", mkObs "P" 2019 12 800 3 7 300 "Low"]

/-- **C6.** On the history (2018, level 10), (2019, level 12) with
`yearsAhead = 1` and any sqrt model: the groundwater-level regression slope
is 2, and the single prediction is for year 2020 with level 14, a confidence
interval [14, 14] centred on 14, and confidenceLevel "high". -/
theorem two_point_forecast (sq : ℚ → ℚ) :
    (linearRegression
        (c6hist.map (fun d => (((d.year : ℤ) : ℚ), d.groundwaterLevel)))).slope = 2 ∧
    (predictFuture sq c6hist 1).map
        (fun p => (p.year, p.groundwaterLevel, p.groundwaterLevelCI.lower,
          p.groundwaterLevelCI.upper, p.confidenceLevel)) =
      [(2020, 14, 14, 14, "high")] := by
  constructor
  · with_unfolding_all decide
  · rw [predictFuture_short_history sq c6hist (by decide) 1]
    with_unfolding_all decide

/-- **C10 amended.** With exactly 2 historical points all three residual
standard errors are 0, so for every horizon step each metric's interval is
`[max 0 u, u]` where `u` is the rounded raw regression estimate: the lower
bound always equals the reported (clamped) point estimate, and whenever the
raw estimate is non-negative the interval is degenerate
(`lower = upper = point estimate`).  When the raw estimate is negative the
reported estimate and lower bound clamp to 0 while the upper bound stays
negative — see the counterexample. -/
theorem predictFuture_two_point_degenerate_CI :
    (∀ (sq : ℚ → ℚ) (points : List (ℚ × ℚ)) (reg : Reg), points.length = 2 →
      calcResidualStdError sq points reg = 0) ∧
    (∀ (sq : ℚ → ℚ) (hist : List Obs) (k : ℕ), hist.length = 2 →
      ∀ p ∈ predictFuture sq hist k,
        (p.groundwaterLevelCI.lower = p.groundwaterLevel ∧
          p.groundwaterLevel = jsMax 0 p.groundwaterLevelCI.upper ∧
          (0 ≤ p.groundwaterLevelCI.upper →
            p.groundwaterLevelCI.lower = p.groundwaterLevelCI.upper)) ∧
        (p.rainfallCI.lower = p.rainfall ∧
          p.rainfall = jsMax 0 p.rainfallCI.upper ∧
          (0 ≤ p.rainfallCI.upper → p.rainfallCI.lower = p.rainfallCI.upper)) ∧
        (p.depletionRateCI.lower = p.depletionRate ∧
          p.depletionRate = jsMax 0 p.depletionRateCI.upper ∧
          (0 ≤ p.depletionRateCI.upper →
            p.depletionRateCI.lower = p.depletionRateCI.upper))) := by
  constructor
  · intro sq points reg hlen
    exact calcResidualStdError_eq_zero sq points reg (by omega)
  · intro sq hist k hlen p hp
    rw [predictFuture_short_history sq hist (by omega) k] at hp
    simp only [predictFuture] at hp
    rw [calcResidualStdError_eq_zero (fun _ => 0) _ _ (by simpa using (by omega : hist.length < 3)),
      calcResidualStdError_eq_zero (fun _ => 0) _ _ (by simpa using (by omega : hist.length < 3)),
      calcResidualStdError_eq_zero (fun _ => 0) _ _ (by simpa using (by omega : hist.length < 3))] at hp
    simp only [zero_mul, sub_zero, add_zero] at hp
    obtain ⟨j, hj, rfl⟩ := List.mem_map.mp hp
    refine ⟨⟨?_, ?_, ?_⟩, ⟨?_, ?_, ?_⟩, ⟨?_, ?_, ?_⟩⟩ <;>
      simp only [roundTo_idem] <;>
      first
        | rfl
        | (intro hpos
           exact jsMax_zero_of_nonneg hpos)

/-- The steeply declining two-observation history used for the C10
counterexample: levels 10 then 2 give slope −8 and a negative 2020
estimate. -/
def c10hist : List Obs :=
  [mkObs "P" 2018 10 800 3 7 300 "Low", mkObs "P" 2019 2 800 3 7 300 "Low"]

/-- **C10 counterexample.** With 2 points and a negative raw estimate the
interval is *not* degenerate: the reported level and lower bound clamp to 0
while the upper bound is −6, so `lower == upper == point estimate` fails. -/
theorem predictFuture_negative_estimate_counterexample :
    (predictFuture (fun _ => 0) c10hist 1).map
        (fun p => (p.groundwaterLevel, p.groundwaterLevelCI.lower,
          p.groundwaterLevelCI.upper)) = [(0, 0, -6)] ∧
    ¬ ((0 : ℚ) = -6) := by
  with_unfolding_all decide

/-- Witness: C10 amended applied to the concrete history `c6hist` (length 2)
and its first prediction. -/
theorem predictFuture_two_point_degenerate_CI_witness :
    calcResidualStdError (fun q => q)
        (c6hist.map (fun d => (((d.year : ℤ) : ℚ), d.groundwaterLevel)))
        (linearRegression
          (c6hist.map (fun d => (((d.year : ℤ) : ℚ), d.groundwaterLevel)))) = 0 ∧
    ∀ p ∈ predictFuture (fun q => q) c6hist 1,
      p.groundwaterLevelCI.lower = p.groundwaterLevel :=
  ⟨predictFuture_two_point_degenerate_CI.1 (fun q => q) _ _
      (by with_unfolding_all decide),
   fun p hp =>
     ((predictFuture_two_point_degenerate_CI.2 (fun q => q) c6hist 1
       (by decide) p hp).1).1⟩

end JalRakshya
